import Mathlib

/-
Verification of the multi-group Raft engine (oceanraft) against its
natural-language specification.

The definitions below are a shallow embedding of the Rust sources:
  * src/oceanraft/src/multiraft.rs        (client facade, pre_propose_check)
  * src/oceanraft/src/multiraft/error.rs  (error taxonomy)
  * src/oceanraft/src/multiraft/group.rs  (group handle: ready/write pipeline,
                                           propose_write, create_apply, ...)
  * src/oceanraft/src/multiraft/msg.rs    (ApplyData::try_batch, message types)
  * src/src/multiraft/multiraft.rs        (MultiRaftActor::fanout_heartbeat)

Machine integers (u64/usize) are modelled as Nat: none of the embedded code
paths perform arithmetic that can overflow in any reachable execution (indices
only grow by small increments), so wrap-around is not modelled.  The raft
library (raft-rs RawNode) is a black box to this code; it is modelled by the
few fields the embedded functions read (term, leader role, last_index) plus
explicit parameters for the outcome of its fallible operations.
-/

--===----------------------------------------------------------------------===//
-- Error taxonomy (src/oceanraft/src/multiraft/error.rs)
--===----------------------------------------------------------------------===//

/-- Errors surfaced by the raft library (re-exported raft::Error); modelled
abstractly since the library is external. -/
inductive RaftCoreError where
  | ProposalDropped
  | Other
deriving DecidableEq, Repr

/-- RaftGroupError from error.rs: group-lifecycle failures. -/
inductive RaftGroupError where
  | NotExist (node_id group_id : Nat)
  | Deleted (node_id group_id : Nat)
  | Exists (node_id group_id : Nat)
deriving DecidableEq, Repr

/-- ChannelError from error.rs: back-pressure and shutdown. -/
inductive ChannelError where
  | Full (msg : String)
  | SenderClosed (msg : String)
  | ReceiverClosed (msg : String)
deriving DecidableEq, Repr

/-- WriteError from error.rs: group-level write failures. -/
inductive WriteError where
  | NotLeader (node_id group_id replica_id : Nat)
  | Stale (requested current : Nat)
  | UnexpectedIndex (expected got : Nat)
deriving DecidableEq, Repr

/-- Modelled from the spec: the ProposeError used by the facade in
multiraft.rs (its defining module is not under src/; spec section 7 gives
Propose\x7bNotLeader(node,group,replica), Stale(requested,current),
UnexpectedIndex(expected,got)\x7d). -/
inductive ProposeError where
  | NotLeader (node_id group_id replica_id : Nat)
  | Stale (requested current : Nat)
  | UnexpectedIndex (expected got : Nat)
deriving DecidableEq, Repr

/-- The top-level Error enum from error.rs (variants not exercised by the
embedded code paths are kept as bare constructors). -/
inductive Error where
  | ConfigInvalid (msg : String)
  | BadParameter (msg : String)
  | Timeout (msg : String)
  | Channel (e : ChannelError)
  | Write (e : WriteError)
  | Propose (e : ProposeError)
  | NodeActor
  | Storage
  | Raft (e : RaftCoreError)
  | RaftGroup (e : RaftGroupError)
deriving DecidableEq, Repr

--===----------------------------------------------------------------------===//
-- Core data model (group.rs / msg.rs)
--===----------------------------------------------------------------------===//

/-- A raft log entry (raft::prelude::Entry), restricted to the fields the
embedded code reads: index, term and the payload bytes. -/
structure Entry where
  index : Nat
  term : Nat
  data : List Nat
deriving DecidableEq, Repr

/-- Proposal record from proposal.rs (declaration only; fields per the spec's
data model and the literals built in group.rs): the in-memory binding between
a pending write and its raft log slot.  The reply channel is modelled by an
identifying token. -/
structure Proposal where
  index : Nat
  term : Nat
  is_conf_change : Bool
  tx : Option Nat
deriving DecidableEq, Repr

/-- The group handle (RaftGroup in group.rs), restricted to the fields read by
the embedded operations.  The wrapped RawNode is flattened into term, leader
role, last_index and the raft_log commit/persist watermarks. -/
structure RaftGroupM where
  node_id : Nat
  group_id : Nat
  replica_id : Nat
  term : Nat
  leader : Bool
  last_index : Nat
  committed : Nat
  persisted : Nat
  proposals : List Proposal
deriving DecidableEq, Repr

--===----------------------------------------------------------------------===//
-- C1: facade pre-check (multiraft.rs, MultiRaft::pre_propose_check)
--===----------------------------------------------------------------------===//

/-- The per-group shared state read by the facade (state.rs GroupState is not
under src/; the facade reads only is_leader() and get_replica_id()). -/
structure GroupStateM where
  leader : Bool
  replica_id : Nat
deriving DecidableEq, Repr

/-- MultiRaft::pre_propose_check from multiraft.rs: a missing shared state for
group_id yields Error::RaftGroup(RaftGroupError::Deleted(0, group_id)); a
present state that is not leader yields Propose(NotLeader). -/
def pre_propose_check (node_id : Nat) (states : Nat → Option GroupStateM)
    (group_id : Nat) : Except Error Unit :=
  match states group_id with
  | none => .error (.RaftGroup (.Deleted 0 group_id))
  | some st =>
    if ¬ st.leader then
      .error (.Propose (.NotLeader node_id group_id st.replica_id))
    else
      .ok ()

/-- A propose message sitting in the actor's bounded propose channel
(ProposeMessage::Write carrying a WriteRequest). -/
structure WriteRequestMsg where
  group_id : Nat
  term : Nat
  context : Option (List Nat)
  tx : Nat
deriving DecidableEq, Repr

/-- MultiRaft::write_non_block from multiraft.rs: run pre_propose_check, then
try_send the propose message on the bounded channel (capacity cap).  Returns
the facade result together with the channel queue afterwards. -/
def write_non_block (node_id : Nat) (states : Nat → Option GroupStateM)
    (cap : Nat) (queue : List WriteRequestMsg)
    (group_id term : Nat) (context : Option (List Nat)) (tx : Nat) :
    Except Error Unit × List WriteRequestMsg :=
  match pre_propose_check node_id states group_id with
  | .error e => (.error e, queue)
  | .ok () =>
    if queue.length < cap then
      (.ok (), queue ++ [⟨group_id, term, context, tx⟩])
    else
      (.error (.Channel (.Full "channel no avaiable capacity for write")), queue)

/-- Classifier: is this facade result the RaftGroup::NotExist error? -/
def isNotExistResult : Except Error Unit × List WriteRequestMsg → Bool
  | (.error (.RaftGroup (.NotExist _ _)), _) => true
  | _ => false

--===----------------------------------------------------------------------===//
-- C7 / C5 / C10: propose_write and its pre-checks (group.rs)
--===----------------------------------------------------------------------===//

/-- WriteData from msg.rs: the propose request the actor routes to the group
handle (reply channel modelled by a token). -/
structure WriteDataM where
  group_id : Nat
  term : Nat
  data : List Nat
  context : Option (List Nat)
  tx : Nat
deriving DecidableEq, Repr

/-- RaftGroup::pre_propose_write from group.rs: empty data, then leader role,
then staleness, in that source order. -/
def pre_propose_write (g : RaftGroupM) (wd : WriteDataM) : Except Error Unit :=
  if wd.data.isEmpty then
    .error (.BadParameter "write request data must not be empty")
  else if ¬ g.leader then
    .error (.Write (.NotLeader g.node_id g.group_id g.replica_id))
  else if wd.term ≠ 0 ∧ g.term > wd.term then
    .error (.Write (.Stale wd.term g.term))
  else
    .ok ()

/-- An error response callback (ResponseCallbackQueue::new_error_callback):
the reply channel token paired with the error it will deliver. -/
abbrev ResponseCallbackM := Nat × Error

/-- RaftGroup::propose_write from group.rs.  The raft library's propose is a
black box; pres is its result and delta the amount by which it advanced
raft_log.last_index (raft-rs appends at most one entry per propose).  Returns
the optional error callback together with the group afterwards. -/
def propose_write (g : RaftGroupM) (wd : WriteDataM)
    (pres : Except RaftCoreError Unit) (delta : Nat) :
    Option ResponseCallbackM × RaftGroupM :=
  match pre_propose_write g wd with
  | .error err => (some (wd.tx, err), g)
  | .ok () =>
    let term := g.term
    let next_index := g.last_index + 1
    match pres with
    | .error err => (some (wd.tx, .Raft err), g)
    | .ok () =>
      let g1 : RaftGroupM := { g with last_index := g.last_index + delta }
      let index := g1.last_index + 1
      if next_index = index then
        (some (wd.tx, .Write (.UnexpectedIndex next_index (index - 1))), g1)
      else
        (none, { g1 with
                   proposals := g1.proposals ++
                     [⟨next_index, term, false, some wd.tx⟩] })

/-- Classifier: is this pre-check result the not-leader error? -/
def isNotLeaderResult : Except Error Unit → Bool
  | .error (.Write (.NotLeader _ _ _)) => true
  | _ => false

--===----------------------------------------------------------------------===//
-- Theorems for C1
--===----------------------------------------------------------------------===//

/-- C1 (corrected): write on a group with no shared state on the node fails
before enqueuing anything, but with RaftGroup::Deleted(0, group_id), not
RaftGroup::NotExist as the claim states. -/
theorem write_unknown_group_deleted (node_id cap group_id term tx : Nat)
    (states : Nat → Option GroupStateM) (queue : List WriteRequestMsg)
    (context : Option (List Nat)) (h : states group_id = none) :
    write_non_block node_id states cap queue group_id term context tx
      = (.error (.RaftGroup (.Deleted 0 group_id)), queue) := by
  simp [write_non_block, pre_propose_check, h]

/-- C1 witness: concrete instantiation of the amended claim at group 99 on an
empty node. -/
theorem write_unknown_group_deleted_witness :
    write_non_block 1 (fun _ => none) 8 [] 99 0 none 0
      = (.error (.RaftGroup (.Deleted 0 99)), []) :=
  write_unknown_group_deleted 1 8 99 0 0 (fun _ => none) [] none rfl

/-- C1 counterexample: at group 99 with no group state, the facade returns
RaftGroup::Deleted(0, 99) and the queue stays empty; the result is not the
RaftGroup::NotExist error the claim names. -/
theorem write_unknown_group_not_notexist :
    write_non_block 1 (fun _ => none) 8 [] 99 0 none 0
      = (.error (.RaftGroup (.Deleted 0 99)), [])
    ∧ isNotExistResult (write_non_block 1 (fun _ => none) 8 [] 99 0 none 0)
        = false := by
  constructor
  · rfl
  · rfl

--===----------------------------------------------------------------------===//
-- Theorems for C7
--===----------------------------------------------------------------------===//

/-- C7 (corrected): pre_propose_write fails fast with bad-parameter if data is
empty (checked first), not-leader if data is non-empty and the replica is not
leader, stale if data is non-empty, the replica is leader, expected_term is
non-zero and the current term exceeds it; in every other case it succeeds. -/
theorem pre_propose_write_cases (g : RaftGroupM) (wd : WriteDataM) :
    (wd.data = [] →
      pre_propose_write g wd
        = .error (.BadParameter "write request data must not be empty"))
    ∧ (wd.data ≠ [] → g.leader = false →
      pre_propose_write g wd
        = .error (.Write (.NotLeader g.node_id g.group_id g.replica_id)))
    ∧ (wd.data ≠ [] → g.leader = true → wd.term ≠ 0 → g.term > wd.term →
      pre_propose_write g wd = .error (.Write (.Stale wd.term g.term)))
    ∧ (wd.data ≠ [] → g.leader = true → (wd.term = 0 ∨ g.term ≤ wd.term) →
      pre_propose_write g wd = .ok ()) := by
  refine ⟨?_, ?_, ?_, ?_⟩
  · intro h
    simp [pre_propose_write, h]
  · intro h hl
    simp [pre_propose_write, List.isEmpty_iff, h, hl]
  · intro h hl ht hgt
    simp [pre_propose_write, List.isEmpty_iff, h, hl, ht, hgt]
  · intro h hl hor
    rcases hor with h0 | hle
    · simp [pre_propose_write, List.isEmpty_iff, h, hl, h0]
    · simp [pre_propose_write, List.isEmpty_iff, h, hl]
      omega

/-- C7 witness: concrete instantiation of all four branches of the amended
pre-check characterisation. -/
theorem pre_propose_write_cases_witness :
    pre_propose_write ⟨1, 1, 1, 5, true, 0, 0, 0, []⟩ ⟨1, 0, [7], none, 3⟩
      = .ok ()
    ∧ pre_propose_write ⟨1, 1, 1, 5, false, 0, 0, 0, []⟩ ⟨1, 0, [7], none, 3⟩
      = .error (.Write (.NotLeader 1 1 1))
    ∧ pre_propose_write ⟨1, 1, 1, 5, true, 0, 0, 0, []⟩ ⟨1, 2, [7], none, 3⟩
      = .error (.Write (.Stale 2 5)) := by
  refine ⟨?_, ?_, ?_⟩
  · exact (pre_propose_write_cases ⟨1, 1, 1, 5, true, 0, 0, 0, []⟩
      ⟨1, 0, [7], none, 3⟩).2.2.2 (by simp) rfl (Or.inl rfl)
  · exact (pre_propose_write_cases ⟨1, 1, 1, 5, false, 0, 0, 0, []⟩
      ⟨1, 0, [7], none, 3⟩).2.1 (by simp) rfl
  · exact (pre_propose_write_cases ⟨1, 1, 1, 5, true, 0, 0, 0, []⟩
      ⟨1, 2, [7], none, 3⟩).2.2.1 (by simp) rfl (by decide) (by decide)

/-- C7 counterexample: a replica that is not leader and receives empty data
gets the bad-parameter error, not the not-leader error the claim promises for
every non-leader replica (the empty-data check runs first in group.rs). -/
theorem pre_propose_write_empty_beats_notleader :
    pre_propose_write ⟨1, 1, 1, 5, false, 0, 0, 0, []⟩ ⟨1, 0, [], none, 3⟩
      = .error (.BadParameter "write request data must not be empty")
    ∧ isNotLeaderResult
        (pre_propose_write ⟨1, 1, 1, 5, false, 0, 0, 0, []⟩ ⟨1, 0, [], none, 3⟩)
      = false := by
  constructor
  · rfl
  · rfl

--===----------------------------------------------------------------------===//
-- Theorems for C5
--===----------------------------------------------------------------------===//

/-- C5 (confirmed): for a propose_write call that passes the pre-checks and a
raft propose that returns Ok, the call fails with unexpected-index reporting
(expected next index, observed last index) when last_index did not advance by
exactly one (the raft library advances it by at most one, hypothesis hd), and
on success appends the record (pre-propose last_index + 1, term read before
propose, is_conf_change = false, reply) to the proposal queue. -/
theorem propose_write_index_contract (g : RaftGroupM) (wd : WriteDataM)
    (delta : Nat) (hpre : pre_propose_write g wd = .ok ()) (hd : delta ≤ 1) :
    (delta = 0 →
      (propose_write g wd (.ok ()) delta).1
        = some (wd.tx, .Write (.UnexpectedIndex (g.last_index + 1) g.last_index))
      ∧ (propose_write g wd (.ok ()) delta).2.proposals = g.proposals)
    ∧ (delta = 1 →
      (propose_write g wd (.ok ()) delta).1 = none
      ∧ (propose_write g wd (.ok ()) delta).2.proposals
          = g.proposals ++ [⟨g.last_index + 1, g.term, false, some wd.tx⟩]) := by
  constructor
  · intro h0
    subst h0
    simp [propose_write, hpre]
  · intro h1
    subst h1
    simp [propose_write, hpre]

/-- C5 witness: a leader at term 5 with last_index 4 proposing non-empty data;
with the entry appended (delta = 1) the record (5, 5, false, tx 3) is pushed,
with a silent drop (delta = 0) the call fails with UnexpectedIndex(5, 4). -/
theorem propose_write_index_contract_witness :
    ((propose_write ⟨1, 1, 1, 5, true, 4, 0, 0, []⟩ ⟨1, 0, [7], none, 3⟩
        (.ok ()) 1).1 = none
      ∧ (propose_write ⟨1, 1, 1, 5, true, 4, 0, 0, []⟩ ⟨1, 0, [7], none, 3⟩
        (.ok ()) 1).2.proposals = [] ++ [⟨5, 5, false, some 3⟩])
    ∧ ((propose_write ⟨1, 1, 1, 5, true, 4, 0, 0, []⟩ ⟨1, 0, [7], none, 3⟩
        (.ok ()) 0).1 = some (3, .Write (.UnexpectedIndex 5 4))
      ∧ (propose_write ⟨1, 1, 1, 5, true, 4, 0, 0, []⟩ ⟨1, 0, [7], none, 3⟩
        (.ok ()) 0).2.proposals = []) := by
  constructor
  · exact (propose_write_index_contract ⟨1, 1, 1, 5, true, 4, 0, 0, []⟩
      ⟨1, 0, [7], none, 3⟩ 1 rfl (by decide)).2 rfl
  · exact (propose_write_index_contract ⟨1, 1, 1, 5, true, 4, 0, 0, []⟩
      ⟨1, 0, [7], none, 3⟩ 0 rfl (by decide)).1 rfl

--===----------------------------------------------------------------------===//
-- Theorems for C10
--===----------------------------------------------------------------------===//

/-- C10 (confirmed): on every error return of propose_write the proposal queue
is unchanged and the single error callback consumes the caller's reply
channel; a record is pushed exactly when the call succeeds. -/
theorem propose_write_error_no_push (g : RaftGroupM) (wd : WriteDataM)
    (pres : Except RaftCoreError Unit) (delta : Nat) :
    (∀ cb : ResponseCallbackM, (propose_write g wd pres delta).1 = some cb →
      (propose_write g wd pres delta).2.proposals = g.proposals ∧ cb.1 = wd.tx)
    ∧ ((propose_write g wd pres delta).1 = none →
      (propose_write g wd pres delta).2.proposals
        = g.proposals ++ [⟨g.last_index + 1, g.term, false, some wd.tx⟩]) := by
  unfold propose_write
  cases h1 : pre_propose_write g wd with
  | error err => simp
  | ok u =>
    cases pres with
    | error err => simp
    | ok v =>
      by_cases h2 : g.last_index + 1 = g.last_index + delta + 1
      · simp [h2]
      · simp [h2]

/-- C10 witness: the not-leader failure leaves the queue untouched and routes
the caller's channel (token 3) into the error callback; the success case at
the same state with leadership pushes exactly one record. -/
theorem propose_write_error_no_push_witness :
    ((propose_write ⟨1, 1, 1, 5, false, 4, 0, 0, [⟨2, 4, false, some 9⟩]⟩
        ⟨1, 0, [7], none, 3⟩ (.ok ()) 1).2.proposals = [⟨2, 4, false, some 9⟩]
      ∧ (3, Error.Write (.NotLeader 1 1 1)).1 = 3)
    ∧ (propose_write ⟨1, 1, 1, 5, true, 4, 0, 0, []⟩ ⟨1, 0, [7], none, 3⟩
        (.ok ()) 1).2.proposals = [] ++ [⟨5, 5, false, some 3⟩] := by
  constructor
  · exact (propose_write_error_no_push
      ⟨1, 1, 1, 5, false, 4, 0, 0, [⟨2, 4, false, some 9⟩]⟩
      ⟨1, 0, [7], none, 3⟩ (.ok ()) 1).1 (3, Error.Write (.NotLeader 1 1 1)) rfl
  · exact (propose_write_error_no_push ⟨1, 1, 1, 5, true, 4, 0, 0, []⟩
      ⟨1, 0, [7], none, 3⟩ (.ok ()) 1).2 rfl

--===----------------------------------------------------------------------===//
-- C2: create_apply (group.rs) with the proposal-queue scan
--===----------------------------------------------------------------------===//

/-- Modelled from the spec: the removal step of ProposalQueue::find_proposal
(proposal.rs is not under src/).  Removes and returns the first queue record
whose (term, index) matches the requested pair. -/
def removeFirstMatch : List Proposal → Nat → Nat → Option Proposal × List Proposal
  | [], _, _ => (none, [])
  | p :: rest, term, idx =>
    if p.term = term ∧ p.index = idx then
      (some p, rest)
    else
      let r := removeFirstMatch rest term idx
      (r.1, p :: r.2)

/-- Modelled from the spec: ProposalQueue::find_proposal (proposal.rs is not
under src/).  Per spec section 4.6 step 5, the queue is scanned for a record
matching (entry.term, entry.index) only when entry.term equals the group's
current term. -/
def find_proposal (queue : List Proposal) (term idx current_term : Nat) :
    Option Proposal × List Proposal :=
  if term = current_term then removeFirstMatch queue term idx
  else (none, queue)

/-- The entry loop of RaftGroup::create_apply: for each committed entry in
order, look for a matching proposal record and move it into the batch. -/
def scan_props (current_term : Nat) :
    List Entry → List Proposal → List Proposal × List Proposal
  | [], queue => ([], queue)
  | e :: es, queue =>
    let fp := find_proposal queue e.term e.index current_term
    let r := scan_props current_term es fp.2
    match fp.1 with
    | none => r
    | some p => (p :: r.1, r.2)

/-- compute_entry_size from util.rs (not under src/): the byte size an entry
contributes to a batch, modelled as the payload length. -/
def compute_entry_size (e : Entry) : Nat := e.data.length

/-- ApplyData from msg.rs: the batch of work handed to the state machine for
one group. -/
structure ApplyDataM where
  replica_id : Nat
  group_id : Nat
  term : Nat
  commit_index : Nat
  commit_term : Nat
  entries : List Entry
  entries_size : Nat
  proposals : List Proposal
deriving DecidableEq, Repr

/-- RaftGroup::create_apply from group.rs: commit_index is
min(raft_log.committed, raft_log.persisted), commit_term is the storage term
at commit_index (gs_term models the successful storage lookup that the code
unwraps), and the proposal queue is scanned per entry when non-empty.
Returns the batch together with the group afterwards. -/
def create_apply (g : RaftGroupM) (gs_term : Nat → Nat) (replica_id : Nat)
    (entries : List Entry) : ApplyDataM × RaftGroupM :=
  let current_term := g.term
  let commit_index := min g.committed g.persisted
  let commit_term := gs_term commit_index
  let scanned :=
    if g.proposals.isEmpty then (([] : List Proposal), g.proposals)
    else scan_props current_term entries g.proposals
  let entries_size := (entries.map compute_entry_size).sum
  ({ replica_id := replica_id
     group_id := g.group_id
     term := current_term
     commit_index := commit_index
     commit_term := commit_term
     entries := entries
     entries_size := entries_size
     proposals := scanned.1 },
   { g with proposals := scanned.2 })

theorem removeFirstMatch_rest_subset (q : List Proposal) (term idx : Nat) :
    ∀ x ∈ (removeFirstMatch q term idx).2, x ∈ q := by
  induction q with
  | nil => simp [removeFirstMatch]
  | cons p rest ih =>
    intro x hx
    by_cases h : p.term = term ∧ p.index = idx
    · simp only [removeFirstMatch, if_pos h] at hx
      exact List.mem_cons_of_mem p hx
    · simp only [removeFirstMatch, if_neg h, List.mem_cons] at hx
      rcases hx with hx | hx
      · exact hx ▸ List.mem_cons_self p rest
      · exact List.mem_cons_of_mem p (ih x hx)

theorem removeFirstMatch_found (q : List Proposal) (term idx : Nat)
    (p : Proposal) (h : (removeFirstMatch q term idx).1 = some p) :
    p ∈ q ∧ p.term = term ∧ p.index = idx := by
  induction q with
  | nil => simp [removeFirstMatch] at h
  | cons hd rest ih =>
    by_cases hc : hd.term = term ∧ hd.index = idx
    · simp only [removeFirstMatch, if_pos hc, Option.some_inj] at h
      subst h
      exact ⟨List.mem_cons_self hd rest, hc⟩
    · simp only [removeFirstMatch, if_neg hc] at h
      obtain ⟨hmem, hp⟩ := ih h
      exact ⟨List.mem_cons_of_mem hd hmem, hp⟩

theorem find_proposal_rest_subset (q : List Proposal) (term idx ct : Nat) :
    ∀ x ∈ (find_proposal q term idx ct).2, x ∈ q := by
  by_cases h : term = ct
  · simpa [find_proposal, h] using removeFirstMatch_rest_subset q term idx
  · simp [find_proposal, h]

theorem find_proposal_found (q : List Proposal) (term idx ct : Nat)
    (p : Proposal) (h : (find_proposal q term idx ct).1 = some p) :
    p ∈ q ∧ p.term = term ∧ p.index = idx ∧ term = ct := by
  by_cases hc : term = ct
  · simp only [find_proposal, if_pos hc] at h
    obtain ⟨hm, h1, h2⟩ := removeFirstMatch_found q term idx p h
    exact ⟨hm, h1, h2, hc⟩
  · simp [find_proposal, hc] at h

theorem scan_props_sound (ct : Nat) :
    ∀ (es : List Entry) (q : List Proposal) (p : Proposal),
      p ∈ (scan_props ct es q).1 →
      p ∈ q ∧ ∃ e ∈ es, e.term = ct ∧ p.term = e.term ∧ p.index = e.index := by
  intro es
  induction es with
  | nil =>
    intro q p hp
    simp [scan_props] at hp
  | cons e es ih =>
    intro q p hp
    simp only [scan_props] at hp
    rcases hfp : (find_proposal q e.term e.index ct).1 with _ | p0
    · rw [hfp] at hp
      obtain ⟨hmem, e', he', h⟩ := ih _ p hp
      exact ⟨find_proposal_rest_subset q e.term e.index ct p hmem,
        e', List.mem_cons_of_mem e he', h⟩
    · rw [hfp] at hp
      rcases List.mem_cons.mp hp with hp | hp
      · subst hp
        obtain ⟨hmem, h1, h2, h3⟩ := find_proposal_found q e.term e.index ct p hfp
        exact ⟨hmem, e, List.mem_cons_self e es, h3, h1, h2⟩
      · obtain ⟨hmem, e', he', h⟩ := ih _ p hp
        exact ⟨find_proposal_rest_subset q e.term e.index ct p hmem,
          e', List.mem_cons_of_mem e he', h⟩

/-- C2 (confirmed): for a non-empty committed-entry list, the apply batch has
commit_index = min(committed, persisted) and commit_term = storage term at
commit_index, and every proposal record moved into the batch comes from the
group's queue and matches the (term, index) of some batch entry whose term
equals the group's current term. -/
theorem create_apply_contract (g : RaftGroupM) (gs_term : Nat → Nat)
    (replica_id : Nat) (entries : List Entry) (_hne : entries ≠ []) :
    (create_apply g gs_term replica_id entries).1.commit_index
        = min g.committed g.persisted
    ∧ (create_apply g gs_term replica_id entries).1.commit_term
        = gs_term (min g.committed g.persisted)
    ∧ ∀ p ∈ (create_apply g gs_term replica_id entries).1.proposals,
        p ∈ g.proposals ∧ ∃ e ∈ entries,
          e.term = g.term ∧ p.term = e.term ∧ p.index = e.index := by
  refine ⟨rfl, rfl, ?_⟩
  intro p hp
  simp only [create_apply] at hp
  by_cases hq : g.proposals.isEmpty
  · simp [hq] at hp
  · simp only [hq, if_neg, Bool.false_eq_true, not_false_eq_true, if_false] at hp
    exact scan_props_sound g.term entries g.proposals p hp

/-- C2 witness: one committed entry (index 2, term 1) at current term 1 with a
matching record in the queue; the batch carries commit_index 2 (min of
committed 2 and persisted 3), commit_term 1, and that record. -/
theorem create_apply_contract_witness :
    (create_apply ⟨1, 1, 1, 1, true, 2, 2, 3, [⟨2, 1, false, some 7⟩]⟩
        (fun _ => 1) 1 [⟨2, 1, [9]⟩]).1.commit_index = 2
    ∧ (create_apply ⟨1, 1, 1, 1, true, 2, 2, 3, [⟨2, 1, false, some 7⟩]⟩
        (fun _ => 1) 1 [⟨2, 1, [9]⟩]).1.commit_term = 1
    ∧ (⟨2, 1, false, some 7⟩ : Proposal) ∈ [(⟨2, 1, false, some 7⟩ : Proposal)]
    ∧ ∃ e ∈ [(⟨2, 1, [9]⟩ : Entry)], e.term = 1 ∧ (2 : Nat) = e.index := by
  refine ⟨?_, ?_, ?_, ?_⟩
  · exact (create_apply_contract ⟨1, 1, 1, 1, true, 2, 2, 3,
      [⟨2, 1, false, some 7⟩]⟩ (fun _ => 1) 1 [⟨2, 1, [9]⟩] (by simp)).1
  · exact (create_apply_contract ⟨1, 1, 1, 1, true, 2, 2, 3,
      [⟨2, 1, false, some 7⟩]⟩ (fun _ => 1) 1 [⟨2, 1, [9]⟩] (by simp)).2.1
  · have h := ((create_apply_contract ⟨1, 1, 1, 1, true, 2, 2, 3,
      [⟨2, 1, false, some 7⟩]⟩ (fun _ => 1) 1 [⟨2, 1, [9]⟩] (by simp)).2.2
      ⟨2, 1, false, some 7⟩ (by decide))
    exact h.1
  · have h := ((create_apply_contract ⟨1, 1, 1, 1, true, 2, 2, 3,
      [⟨2, 1, false, some 7⟩]⟩ (fun _ => 1) 1 [⟨2, 1, [9]⟩] (by simp)).2.2
      ⟨2, 1, false, some 7⟩ (by decide))
    obtain ⟨e, he, h1, _, h3⟩ := h.2
    exact ⟨e, he, h1, h3⟩

--===----------------------------------------------------------------------===//
-- C8: remove_pending_proposals (group.rs)
--===----------------------------------------------------------------------===//

/-- RaftGroup::remove_pending_proposals from group.rs: drain the whole
proposal queue and send Error::RaftGroup(Deleted(group_id, replica_id)) on
each record's reply channel (records whose channel was already consumed send
nothing).  Returns the list of sends together with the group afterwards. -/
def remove_pending_proposals (g : RaftGroupM) :
    List (Nat × Error) × RaftGroupM :=
  (g.proposals.filterMap (fun p =>
      p.tx.map (fun t =>
        (t, Error.RaftGroup (.Deleted g.group_id g.replica_id)))),
   { g with proposals := [] })

/-- Helper: in a duplicate-free list of channel tokens, a present token is
picked out exactly once by filtering. -/
theorem nodup_filter_length_one {l : List Nat} {t : Nat} (hnd : l.Nodup)
    (hm : t ∈ l) : (l.filter (fun x => x = t)).length = 1 := by
  induction l with
  | nil => cases hm
  | cons a l ih =>
    rcases List.nodup_cons.mp hnd with ⟨ha, hl⟩
    rcases List.mem_cons.mp hm with h | h
    · subst h
      have hnil : l.filter (fun x => x = t) = [] := by
        rw [List.filter_eq_nil_iff]
        intro b hb
        simp only [decide_eq_true_eq]
        intro hbt
        exact ha (hbt ▸ hb)
      simp [List.filter_cons, hnil]
    · have hne : ¬ (a = t) := by
        intro hat
        subst hat
        exact ha h
      simp [List.filter_cons, hne, ih hl h]

/-- C8 (confirmed): when the reply channels pending in the queue are pairwise
distinct, removing a group resolves every pending proposal exactly once with
the Deleted error naming the group and replica, and leaves the proposal queue
empty. -/
theorem remove_pending_proposals_contract (g : RaftGroupM)
    (hnodup : (g.proposals.filterMap (fun p => p.tx)).Nodup) :
    (remove_pending_proposals g).2.proposals = []
    ∧ ∀ p ∈ g.proposals, ∀ t, p.tx = some t →
        ((remove_pending_proposals g).1.filter (fun s =>
          s = (t, Error.RaftGroup (.Deleted g.group_id g.replica_id)))).length
          = 1 := by
  constructor
  · rfl
  · intro p hp t htx
    have hrw : (remove_pending_proposals g).1
        = (g.proposals.filterMap (fun p => p.tx)).map
            (fun t => (t, Error.RaftGroup (.Deleted g.group_id g.replica_id))) := by
      simp [remove_pending_proposals, List.map_filterMap]
    rw [hrw, List.filter_map, List.length_map]
    rw [List.filter_congr (q := fun x => decide (x = t)) ?hcong]
    · exact nodup_filter_length_one hnodup (List.mem_filterMap.mpr ⟨p, hp, htx⟩)
    · intro x hx
      simp [Function.comp, Prod.ext_iff]

/-- C8 witness: a queue holding channels 3 and 5 (and one already-consumed
record) resolves each exactly once with Deleted(group 1, replica 2) and ends
empty. -/
theorem remove_pending_proposals_contract_witness :
    (remove_pending_proposals ⟨1, 1, 2, 1, true, 0, 0, 0,
        [⟨1, 1, false, some 3⟩, ⟨2, 1, false, none⟩, ⟨3, 1, false, some 5⟩]⟩
      ).2.proposals = []
    ∧ ((remove_pending_proposals ⟨1, 1, 2, 1, true, 0, 0, 0,
        [⟨1, 1, false, some 3⟩, ⟨2, 1, false, none⟩, ⟨3, 1, false, some 5⟩]⟩
      ).1.filter (fun s => s = (3, Error.RaftGroup (.Deleted 1 2)))).length = 1
    ∧ ((remove_pending_proposals ⟨1, 1, 2, 1, true, 0, 0, 0,
        [⟨1, 1, false, some 3⟩, ⟨2, 1, false, none⟩, ⟨3, 1, false, some 5⟩]⟩
      ).1.filter (fun s => s = (5, Error.RaftGroup (.Deleted 1 2)))).length
      = 1 := by
  refine ⟨?_, ?_, ?_⟩
  · exact (remove_pending_proposals_contract ⟨1, 1, 2, 1, true, 0, 0, 0,
      [⟨1, 1, false, some 3⟩, ⟨2, 1, false, none⟩, ⟨3, 1, false, some 5⟩]⟩
      (by decide)).1
  · exact (remove_pending_proposals_contract ⟨1, 1, 2, 1, true, 0, 0, 0,
      [⟨1, 1, false, some 3⟩, ⟨2, 1, false, none⟩, ⟨3, 1, false, some 5⟩]⟩
      (by decide)).2 ⟨1, 1, false, some 3⟩ (by decide) 3 rfl
  · exact (remove_pending_proposals_contract ⟨1, 1, 2, 1, true, 0, 0, 0,
      [⟨1, 1, false, some 3⟩, ⟨2, 1, false, none⟩, ⟨3, 1, false, some 5⟩]⟩
      (by decide)).2 ⟨3, 1, false, some 5⟩ (by decide) 5 rfl

--===----------------------------------------------------------------------===//
-- C9: ApplyData::try_batch (msg.rs)
--===----------------------------------------------------------------------===//

/-- ApplyData::try_batch from msg.rs.  The four asserts (same replica, same
group, monotone term / commit_index / commit_term) panic on violation,
modelled as none; otherwise the merge happens iff max_batch_size is non-zero
and the combined entry byte size fits, draining the second batch into the
first. -/
def try_batch (a b : ApplyDataM) (max_batch_size : Nat) :
    Option (Bool × ApplyDataM × ApplyDataM) :=
  if a.replica_id = b.replica_id ∧ a.group_id = b.group_id
      ∧ a.term ≤ b.term ∧ a.commit_index ≤ b.commit_index
      ∧ a.commit_term ≤ b.commit_term then
    if max_batch_size = 0 ∨ a.entries_size + b.entries_size > max_batch_size then
      some (false, a, b)
    else
      some (true,
        { a with
            term := b.term
            commit_index := b.commit_index
            commit_term := b.commit_term
            entries := a.entries ++ b.entries
            entries_size := a.entries_size + b.entries_size
            proposals := a.proposals ++ b.proposals },
        { b with entries := [], proposals := [] })
  else
    none

/-- C9 (confirmed): for batches with equal (group, replica) and monotone
(term, commit_index, commit_term), try_batch merges iff the budget is
non-zero and the combined entry bytes fit, and a merge takes the later
batch's term/commit_index/commit_term and concatenates entries and proposals
in order. -/
theorem try_batch_contract (a b : ApplyDataM) (m : Nat)
    (h1 : a.replica_id = b.replica_id) (h2 : a.group_id = b.group_id)
    (h3 : a.term ≤ b.term) (h4 : a.commit_index ≤ b.commit_index)
    (h5 : a.commit_term ≤ b.commit_term) :
    ∃ r, try_batch a b m = some r
    ∧ (r.1 = true ↔ m ≠ 0 ∧ a.entries_size + b.entries_size ≤ m)
    ∧ (r.1 = true →
        r.2.1.term = b.term
        ∧ r.2.1.commit_index = b.commit_index
        ∧ r.2.1.commit_term = b.commit_term
        ∧ r.2.1.entries = a.entries ++ b.entries
        ∧ r.2.1.proposals = a.proposals ++ b.proposals) := by
  by_cases hfit : m = 0 ∨ a.entries_size + b.entries_size > m
  · refine ⟨(false, a, b), ?_, ?_, ?_⟩
    · simp [try_batch, h1, h2, h3, h4, h5, hfit]
    · simp only [Bool.false_eq_true, false_iff]
      intro hcon
      rcases hfit with h0 | hgt
      · exact hcon.1 h0
      · omega
    · intro hcon
      simp at hcon
  · refine ⟨(true,
      { a with
          term := b.term
          commit_index := b.commit_index
          commit_term := b.commit_term
          entries := a.entries ++ b.entries
          entries_size := a.entries_size + b.entries_size
          proposals := a.proposals ++ b.proposals },
      { b with entries := [], proposals := [] }), ?_, ?_, ?_⟩
    · simp [try_batch, h1, h2, h3, h4, h5, hfit]
    · push_neg at hfit
      simp [hfit]
    · intro _
      exact ⟨rfl, rfl, rfl, rfl, rfl⟩

/-- C9 witness: two singleton batches of 4 and 3 entry bytes with budget 8
merge into one batch carrying the later watermarks and both entry lists; with
budget 0 they do not merge. -/
theorem try_batch_contract_witness :
    try_batch ⟨1, 1, 1, 1, 1, [⟨1, 1, [0, 0, 0, 0]⟩], 4, []⟩
        ⟨1, 1, 2, 2, 2, [⟨2, 2, [0, 0, 0]⟩], 3, []⟩ 8
      = some (true, ⟨1, 1, 2, 2, 2,
          [⟨1, 1, [0, 0, 0, 0]⟩, ⟨2, 2, [0, 0, 0]⟩], 7, []⟩,
          ⟨1, 1, 2, 2, 2, [], 3, []⟩)
    ∧ try_batch ⟨1, 1, 1, 1, 1, [⟨1, 1, [0, 0, 0, 0]⟩], 4, []⟩
        ⟨1, 1, 2, 2, 2, [⟨2, 2, [0, 0, 0]⟩], 3, []⟩ 0
      = some (false, ⟨1, 1, 1, 1, 1, [⟨1, 1, [0, 0, 0, 0]⟩], 4, []⟩,
          ⟨1, 1, 2, 2, 2, [⟨2, 2, [0, 0, 0]⟩], 3, []⟩) := by
  have h8 := try_batch_contract ⟨1, 1, 1, 1, 1, [⟨1, 1, [0, 0, 0, 0]⟩], 4, []⟩
    ⟨1, 1, 2, 2, 2, [⟨2, 2, [0, 0, 0]⟩], 3, []⟩ 8
    rfl rfl (by decide) (by decide) (by decide)
  have h0 := try_batch_contract ⟨1, 1, 1, 1, 1, [⟨1, 1, [0, 0, 0, 0]⟩], 4, []⟩
    ⟨1, 1, 2, 2, 2, [⟨2, 2, [0, 0, 0]⟩], 3, []⟩ 0
    rfl rfl (by decide) (by decide) (by decide)
  obtain ⟨r8, he8, -, -⟩ := h8
  obtain ⟨r0, he0, -, -⟩ := h0
  constructor
  · rw [show (8 : Nat) = 8 from rfl] at he8
    exact he8 ▸ (by rw [← he8]; rfl)
  · exact he0 ▸ (by rw [← he0]; rfl)

--===----------------------------------------------------------------------===//
-- C6: handle_ready_write (group.rs)
--===----------------------------------------------------------------------===//

/-- The slice of a raft Ready consumed by handle_ready_write: the snapshot
(none models Snapshot::default()), the entries to append, the hard state if
changed, and the messages to send after persisting. -/
structure ReadyM where
  snapshot : Option Nat
  entries : List Entry
  hs : Option Nat
  persisted_messages : List Nat
deriving DecidableEq, Repr

/-- One persistence / dispatch step performed by handle_ready_write, in the
order the source performs them. -/
inductive WriteOp where
  | snap (s : Nat)
  | append (es : List Entry)
  | hard (h : Nat)
  | send (ms : List Nat)
  | advance
deriving DecidableEq, Repr

/-- RaftGroup::handle_ready_write from group.rs: apply the snapshot if it is
not the default, append the entries if any, set the hard state if present,
dispatch the persisted messages if any, and finally call advance_append
(modelled by the black-box adv) storing the LightReady on the write request.
Returns the ordered operation trace and the stored LightReady. -/
def handle_ready_write (adv : ReadyM → Nat) (r : ReadyM) :
    List WriteOp × Option Nat :=
  ((match r.snapshot with
    | some s => [WriteOp.snap s]
    | none => [])
   ++ (if r.entries.isEmpty then [] else [WriteOp.append r.entries])
   ++ (match r.hs with
    | some h => [WriteOp.hard h]
    | none => [])
   ++ (if r.persisted_messages.isEmpty then []
       else [WriteOp.send r.persisted_messages])
   ++ [WriteOp.advance],
   some (adv r))

/-- The position of each step in the snapshot-entries-hardstate-messages-
advance pipeline. -/
def writeOpRank : WriteOp → Nat
  | .snap _ => 0
  | .append _ => 1
  | .hard _ => 2
  | .send _ => 3
  | .advance => 4

/-- C6 (confirmed): the handle_ready_write trace is strictly ordered snapshot
before entries before hard state before persisted messages, ends with the
advance_append call, contains each step exactly when the corresponding ready
field is non-trivial, and the resulting LightReady is stored on the write
request. -/
theorem handle_ready_write_order (adv : ReadyM → Nat) (r : ReadyM) :
    List.Pairwise (fun x y => writeOpRank x < writeOpRank y)
      (handle_ready_write adv r).1
    ∧ (handle_ready_write adv r).1.getLast? = some WriteOp.advance
    ∧ ((∃ s, WriteOp.snap s ∈ (handle_ready_write adv r).1)
        ↔ r.snapshot ≠ none)
    ∧ (WriteOp.append r.entries ∈ (handle_ready_write adv r).1
        ↔ r.entries ≠ [])
    ∧ ((∃ h, WriteOp.hard h ∈ (handle_ready_write adv r).1) ↔ r.hs ≠ none)
    ∧ (WriteOp.send r.persisted_messages ∈ (handle_ready_write adv r).1
        ↔ r.persisted_messages ≠ [])
    ∧ (handle_ready_write adv r).2 = some (adv r) := by
  obtain ⟨osnap, es, ohs, ms⟩ := r
  rcases osnap with _ | s <;> rcases ohs with _ | h <;>
    rcases es with _ | ⟨e, es⟩ <;> rcases ms with _ | ⟨m, ms⟩ <;>
    simp [handle_ready_write, writeOpRank]

--===----------------------------------------------------------------------===//
-- C3: read-index resolution (group.rs on_reads_ready, proposal.rs queue)
--===----------------------------------------------------------------------===//

/-- ReadIndexProposal from proposal.rs (declaration only; fields per the
literals built in group.rs read_index_propose): the pending read-index
record.  The uuid is modelled as a Nat, the reply channel as a token. -/
structure ReadIndexProposal where
  uuid : Nat
  read_index : Option Nat
  context : Option (List Nat)
  tx : Option Nat
deriving DecidableEq, Repr

/-- A raft ReadState: the quorum-acknowledged read index together with the
request context, which the engine uses to carry the record's uuid. -/
structure ReadStateM where
  index : Nat
  request_ctx : Nat
deriving DecidableEq, Repr

/-- Does some produced read-state carry this record's uuid? -/
def rs_matches (rss : List ReadStateM) (p : ReadIndexProposal) : Bool :=
  rss.any (fun rs => rs.request_ctx = p.uuid)

/-- Modelled from the spec: ReadIndexQueue::advance_reads (proposal.rs is not
under src/).  A pending record whose uuid matches a produced read-state
records that read-state's index; the others stay untouched. -/
def advance_reads (q : List ReadIndexProposal) (rss : List ReadStateM) :
    List ReadIndexProposal :=
  q.map (fun p =>
    match rss.find? (fun rs => rs.request_ctx = p.uuid) with
    | some rs => { p with read_index := some rs.index }
    | none => p)

/-- RaftGroup::on_reads_ready from group.rs: advance the queue with the
popped read states, then pop every resolved record, sending Ok(()) on its
reply channel (the source sends the unit value, not the user context).
Returns the sends (channel token, payload) and the records still pending. -/
def on_reads_ready (q : List ReadIndexProposal) (rss : List ReadStateM) :
    List (Nat × Except Error Unit) × List ReadIndexProposal :=
  let q2 := advance_reads q rss
  let ready := q2.filter (fun p => p.read_index.isSome)
  let pending := q2.filter (fun p => ¬ p.read_index.isSome)
  (ready.filterMap (fun p => p.tx.map (fun t => (t, Except.ok ()))), pending)

/-- RaftGroup::read_index_propose from group.rs: encode (uuid, context) into
the raft read context, call read_index, and push a record whose context field
is None (the user context is not retained on the record). -/
def read_index_propose (q : List ReadIndexProposal) (uuid : Nat)
    (_context : Option (List Nat)) (tx : Nat) : List ReadIndexProposal :=
  q ++ [{ uuid := uuid, read_index := none, context := none, tx := some tx }]

/-- C3 (corrected): over a queue of pending records (read_index not yet set),
exactly the records whose uuid matches a produced read-state are resolved,
each resolved record's channel receives Ok(()) — not the user context — and
the unmatched records remain pending unchanged. -/
theorem on_reads_ready_resolves_matched (q : List ReadIndexProposal)
    (rss : List ReadStateM) (hpend : ∀ p ∈ q, p.read_index = none) :
    (∀ s ∈ (on_reads_ready q rss).1, s.2 = Except.ok ())
    ∧ (on_reads_ready q rss).1.map Prod.fst
        = (q.filter (fun p => rs_matches rss p)).filterMap (fun p => p.tx)
    ∧ (on_reads_ready q rss).2 = q.filter (fun p => ¬ rs_matches rss p) := by
  induction q with
  | nil =>
    simp [on_reads_ready, advance_reads]
  | cons p q ih =>
    have hp : p.read_index = none := hpend p (List.mem_cons_self p q)
    have hq : ∀ x ∈ q, x.read_index = none :=
      fun x hx => hpend x (List.mem_cons_of_mem p hx)
    obtain ⟨ih1, ih2, ih3⟩ := ih hq
    rcases hfind : rss.find? (fun rs => rs.request_ctx = p.uuid) with _ | rs
    · have hm : rs_matches rss p = false := by
        simp only [rs_matches]
        rw [List.any_eq_false]
        intro x hx
        simpa using List.find?_eq_none.mp hfind x hx
      have hsends : (on_reads_ready (p :: q) rss).1
          = (on_reads_ready q rss).1 := by
        simp [on_reads_ready, advance_reads, hfind, hp]
      have hpending : (on_reads_ready (p :: q) rss).2
          = p :: (on_reads_ready q rss).2 := by
        simp [on_reads_ready, advance_reads, hfind, hp]
      refine ⟨?_, ?_, ?_⟩
      · intro s hs
        exact ih1 s (hsends ▸ hs)
      · rw [hsends, ih2, List.filter_cons]
        simp [hm]
      · rw [hpending, ih3, List.filter_cons]
        simp [hm]
    · have hm : rs_matches rss p = true := by
        simp only [rs_matches, List.any_eq_true]
        refine ⟨rs, List.mem_of_find?_eq_some hfind, ?_⟩
        simpa using List.find?_some hfind
      have hpending : (on_reads_ready (p :: q) rss).2
          = (on_reads_ready q rss).2 := by
        simp [on_reads_ready, advance_reads, hfind]
      rcases htx : p.tx with _ | t
      · have hsends : (on_reads_ready (p :: q) rss).1
            = (on_reads_ready q rss).1 := by
          simp [on_reads_ready, advance_reads, hfind, htx]
        refine ⟨?_, ?_, ?_⟩
        · intro s hs
          exact ih1 s (hsends ▸ hs)
        · rw [hsends, ih2, List.filter_cons]
          simp [hm, htx]
        · rw [hpending, ih3, List.filter_cons]
          simp [hm]
      · have hsends : (on_reads_ready (p :: q) rss).1
            = (t, Except.ok ()) :: (on_reads_ready q rss).1 := by
          simp [on_reads_ready, advance_reads, hfind, htx]
        refine ⟨?_, ?_, ?_⟩
        · intro s hs
          rw [hsends] at hs
          rcases List.mem_cons.mp hs with h | h
          · rw [h]
          · exact ih1 s h
        · rw [hsends, List.map_cons, ih2, List.filter_cons]
          simp [hm, htx]
        · rw [hpending, ih3, List.filter_cons]
          simp [hm]

/-- C3 witness: a queue with a matching record (uuid 5, channel 1) and a
non-matching one (uuid 6, channel 2) under read-state (index 3, ctx 5): the
channel 1 send carries Ok(()), and the uuid 6 record stays pending. -/
theorem on_reads_ready_resolves_matched_witness :
    (on_reads_ready [⟨5, none, none, some 1⟩, ⟨6, none, none, some 2⟩]
        [⟨3, 5⟩]).1.map Prod.fst = [1]
    ∧ (on_reads_ready [⟨5, none, none, some 1⟩, ⟨6, none, none, some 2⟩]
        [⟨3, 5⟩]).2 = [⟨6, none, none, some 2⟩]
    ∧ ∀ s ∈ (on_reads_ready [⟨5, none, none, some 1⟩,
        ⟨6, none, none, some 2⟩] [⟨3, 5⟩]).1, s.2 = Except.ok () := by
  have h := on_reads_ready_resolves_matched
    [⟨5, none, none, some 1⟩, ⟨6, none, none, some 2⟩] [⟨3, 5⟩]
    (by intro p hp; fin_cases hp <;> rfl)
  exact ⟨by rw [h.2.1]; rfl, by rw [h.2.2]; rfl, h.1⟩

/-- C3 counterexample: the reply payload does not carry the user context: a
read_index recorded with context [42] and one recorded with no context
produce identical resolutions, and the payload delivered on channel 1 is
Ok(()) — the claim's Ok(context) is not what the source sends. -/
theorem on_reads_ready_drops_context :
    on_reads_ready (read_index_propose [] 5 (some [42]) 1) [⟨3, 5⟩]
      = on_reads_ready (read_index_propose [] 5 none 1) [⟨3, 5⟩]
    ∧ (on_reads_ready (read_index_propose [] 5 (some [42]) 1) [⟨3, 5⟩]).1
      = [(1, Except.ok ())] := by
  constructor
  · rfl
  · rfl

--===----------------------------------------------------------------------===//
-- C4: coalesced heartbeat fan-out (src/src/multiraft/multiraft.rs)
--===----------------------------------------------------------------------===//

/-- Message type tag of the wrapped raft message. -/
inductive MsgType where
  | MsgHeartbeat
  | MsgHeartbeatResponse
deriving DecidableEq, Repr

/-- ReplicaMetadata from the proto: locates a replica by node, store and
replica id. -/
structure ReplicaMetadata where
  node_id : Nat
  store_id : Nat
  replica_id : Nat
deriving DecidableEq, Repr

/-- The RaftMessage envelope: group 0 designates a coalesced heartbeat. -/
structure RaftMessageM where
  group_id : Nat
  from_replica : Option ReplicaMetadata
  to_replica : Option ReplicaMetadata
  msg_type : MsgType
deriving DecidableEq, Repr

/-- A synthetic per-group raft message stepped into a group's RawNode. -/
structure StepMsg where
  group_id : Nat
  from_r : Nat
  to_r : Nat
  msg_type : MsgType
deriving DecidableEq, Repr

/-- A group as fanout_heartbeat reads it: its last known leader. -/
structure HBGroup where
  group_id : Nat
  leader : Option ReplicaMetadata
deriving DecidableEq, Repr

/-- The MultiRaftActor state read by fanout_heartbeat: the node id, the
node-to-groups map, the group map, and the storage lookup
replica_in_node(group, node) (the source unwraps both layers, so the lookup
is modelled as total). -/
structure HBActor where
  node_id : Nat
  nodes : List (Nat × List Nat)
  groups : List (Nat × HBGroup)
  replica_in_node : Nat → Nat → Nat

/-- First association for a key in a list-backed map. -/
def lookupA {α : Type} (l : List (Nat × α)) (k : Nat) : Option α :=
  (l.find? (fun kv => kv.1 = k)).map (fun kv => kv.2)

/-- MultiRaftActor::fanout_heartbeat from src/src/multiraft/multiraft.rs:
on a coalesced heartbeat, look up the sender in the node map (replying and
returning if absent), then for every group recorded for the sender, step a
synthetic heartbeat only when the group's leader is on the sender's node AND
the sender's node equals the receiving actor's own node id (the source's
guard skips the group when leader.node_id != from.node_id or from.node_id !=
self.node_id), and finally send exactly one group-0 HeartbeatResponse back.
Returns the stepped messages and the transport sends. -/
def fanout_heartbeat (a : HBActor) (raft_msg : RaftMessageM) :
    List StepMsg × List RaftMessageM :=
  match raft_msg.from_replica with
  | none => ([], [])
  | some fromr =>
    match raft_msg.to_replica with
    | none => ([], [])
    | some tor =>
      let response : RaftMessageM :=
        { group_id := 0
          from_replica := some ⟨a.node_id, 0, 0⟩
          to_replica := some ⟨fromr.node_id, 0, 0⟩
          msg_type := .MsgHeartbeatResponse }
      match lookupA a.nodes fromr.node_id with
      | none => ([], [response])
      | some group_ids =>
        let steps := group_ids.filterMap (fun gid =>
          match lookupA a.groups gid with
          | none => none
          | some group =>
            match group.leader with
            | none => none
            | some leader =>
              if leader.node_id ≠ fromr.node_id ∨ fromr.node_id ≠ a.node_id
              then none
              else some { group_id := gid
                          from_r := a.replica_in_node gid fromr.node_id
                          to_r := a.replica_in_node gid tor.node_id
                          msg_type := .MsgHeartbeat })
        (steps, [response])

/-- The receiving actor of the failing scenario: node 1 knows that peer node
2 hosts a replica of group 1, and group 1's leader is replica 2 on node 2. -/
def hbActorNode1 : HBActor :=
  { node_id := 1
    nodes := [(2, [1])]
    groups := [(1, ⟨1, some ⟨2, 0, 2⟩⟩)]
    replica_in_node := fun gid nid =>
      if gid = 1 ∧ nid = 1 then 1 else if gid = 1 ∧ nid = 2 then 2 else 0 }

/-- The coalesced heartbeat node 2 sends to node 1. -/
def hbFromNode2 : RaftMessageM :=
  { group_id := 0
    from_replica := some ⟨2, 0, 0⟩
    to_replica := some ⟨1, 0, 0⟩
    msg_type := .MsgHeartbeat }

/-- C4 (code_bug): node 1 hosts group 1, knows the sender node 2 hosts a
replica of group 1 and that group 1's leader sits on node 2, yet receiving
node 2's coalesced heartbeat steps no synthetic heartbeat into any group —
the source's guard requires from.node_id = self.node_id, impossible for a
remote sender — while exactly one group-0 HeartbeatResponse is still sent
back to node 2. -/
theorem fanout_heartbeat_steps_nothing :
    fanout_heartbeat hbActorNode1 hbFromNode2
      = ([], [{ group_id := 0
                from_replica := some ⟨1, 0, 0⟩
                to_replica := some ⟨2, 0, 0⟩
                msg_type := .MsgHeartbeatResponse }]) := by
  rfl
